import Mathlib

/-!
Shallow embedding of the credential-verification and OAuth-state-machine
core of the Notion MCP gateway (src/notion_oauth.py, src/auth.py,
src/server.py, src/notion.py), together with theorems settling the frozen
claims about it.

Modelling conventions:
* Python `datetime` / `time.time()` values are integers (`Int`), threaded
  explicitly as a `now` parameter wherever the source calls `_utcnow()` or
  `time.time()`.
* Python `dict` objects with string keys are association lists with unique
  keys; `dictGet`, `dictSet`, `dictPop` embed `d.get(k)`, `d[k] = v`,
  `d.pop(k, None)`.
* Outbound HTTP calls (`exchange_token`, `smoke_test_search`, the JWKS
  fetch) are oracles passed as `Except String _` parameters: `.ok` is a
  2xx JSON body, `.error` an exception raised by `raise_for_status` or the
  transport.
* Randomness (`secrets.token_urlsafe`) is a `state_val` parameter.
-/

/-- Lookup in a Python dict modelled as an association list (`d.get(k)`). -/
def dictGet {α : Type} (d : List (String × α)) (k : String) : Option α :=
  match d with
  | [] => none
  | (k0, v0) :: rest => if k0 = k then some v0 else dictGet rest k

/-- Assignment `d[k] = v` on a Python dict: replace the existing binding
in place, or append a new one. -/
def dictSet {α : Type} (d : List (String × α)) (k : String) (v : α) :
    List (String × α) :=
  match d with
  | [] => [(k, v)]
  | (k0, v0) :: rest =>
      if k0 = k then (k, v) :: rest else (k0, v0) :: dictSet rest k v

/-- Removal `d.pop(k, None)` on a Python dict with unique keys. -/
def dictPop {α : Type} (d : List (String × α)) (k : String) :
    List (String × α) :=
  match d with
  | [] => []
  | (k0, v0) :: rest => if k0 = k then rest else (k0, v0) :: dictPop rest k

deriving instance DecidableEq for Except

/-- Embeds Python `s.startswith(pre)` as a character-list prefix test. -/
def pyStartsWith (s pre : String) : Bool :=
  pre.data.isPrefixOf s.data

/-- Python truthiness of an `Optional[str]`: falsy iff `None` or `""`. -/
def pyFalsyOptStr : Option String → Bool
  | none => true
  | some s => s == ""

/-- Mirrors `OAuthState` (src/notion_oauth.py): one pending authorization
attempt. -/
structure OAuthState where
  state : String
  created_at : Int
  expires_at : Int
  consumed_at : Option Int
  principal_id : Option String
deriving Repr, DecidableEq

/-- Mirrors `InMemoryStateStore` (src/notion_oauth.py): the dict
`self._states : Dict[str, OAuthState]`. -/
structure InMemoryStateStore where
  states : List (String × OAuthState)
deriving Repr, DecidableEq

/-- Mirrors `InMemoryStateStore.create`: builds a fresh unconsumed record
expiring `ttl_seconds` after `now` and stores it under the generated state
value (`state_val` stands for the `secrets.token_urlsafe(32)` draw).
Returns the record and the updated store. -/
def InMemoryStateStore.create (s : InMemoryStateStore) (state_val : String)
    (now : Int) (ttl_seconds : Int) (principal_id : Option String) :
    OAuthState × InMemoryStateStore :=
  let record : OAuthState :=
    { state := state_val, created_at := now, expires_at := now + ttl_seconds,
      consumed_at := none, principal_id := principal_id }
  (record, { states := dictSet s.states state_val record })

/-- Mirrors `InMemoryStateStore.consume`: returns `none` when the value is
unknown, already consumed, or expired (`expires_at <= now`); otherwise
marks `consumed_at = now` in the stored record and returns it. The second
component is the store after the call. -/
def InMemoryStateStore.consume (s : InMemoryStateStore) (state_val : String)
    (now : Int) : Option OAuthState × InMemoryStateStore :=
  match dictGet s.states state_val with
  | none => (none, s)
  | some record =>
      if record.consumed_at.isSome then (none, s)
      else if record.expires_at ≤ now then (none, s)
      else
        let record2 := { record with consumed_at := some now }
        (some record2, { states := dictSet s.states state_val record2 })

/-- Mirrors the JSON body of the provider token response
(`Dict[str, Any]`), restricted to the string-valued fields the code
reads. -/
abbrev TokenResponse := List (String × String)

/-- Mirrors `TokenRecord` (src/notion_oauth.py). -/
structure TokenRecord where
  access_token : String
  workspace_id : Option String
  workspace_name : Option String
  created_at : Int
  scope : Option String
  raw : TokenResponse
deriving Repr, DecidableEq

/-- Mirrors `InMemoryTokenStore` (src/notion_oauth.py): holds
`self._last_token`. -/
structure InMemoryTokenStore where
  last_token : Option TokenRecord
deriving Repr, DecidableEq

/-- Mirrors `InMemoryTokenStore.save`. -/
def InMemoryTokenStore.save (s : InMemoryTokenStore) (record : TokenRecord) :
    InMemoryTokenStore :=
  let _ := s
  { last_token := some record }

/-- Mirrors `InMemoryTokenStore.get`. -/
def InMemoryTokenStore.get (s : InMemoryTokenStore) : Option TokenRecord :=
  s.last_token

/-- Mirrors `store_token` (src/notion_oauth.py): builds a `TokenRecord`
from the exchange response and saves it. Returns the record and the
updated store. -/
def store_token (token_response : TokenResponse) (now : Int)
    (token_store : InMemoryTokenStore) : TokenRecord × InMemoryTokenStore :=
  let record : TokenRecord :=
    { access_token := (dictGet token_response "access_token").getD ""
      workspace_id := dictGet token_response "workspace_id"
      workspace_name := dictGet token_response "workspace_name"
      created_at := now
      scope := dictGet token_response "scope"
      raw := token_response }
  (record, token_store.save record)

/-- JSON values appearing in the dict produced by `dataclasses.asdict` on
a `TokenRecord`: strings, the `created_at` datetime, the nested `raw`
dict, and `None`. -/
inductive JVal
  | str (s : String)
  | time (t : Int)
  | dict (entries : TokenResponse)
  | null
deriving Repr, DecidableEq

/-- JSON object with one level of values. -/
abbrev JsonObj := List (String × JVal)

/-- Embeds an `Optional[str]` dataclass field as its JSON value. -/
def optJVal : Option String → JVal
  | none => .null
  | some s => .str s

/-- Mirrors `dataclasses.asdict` applied to a `TokenRecord`: the fields in
declaration order, `created_at` still a datetime value. -/
def asdictTokenRecord (t : TokenRecord) : JsonObj :=
  [("access_token", .str t.access_token),
   ("workspace_id", optJVal t.workspace_id),
   ("workspace_name", optJVal t.workspace_name),
   ("created_at", .time t.created_at),
   ("scope", optJVal t.scope),
   ("raw", .dict t.raw)]

/-- Abstracts `datetime.isoformat`: an injective ISO-8601 rendering of the
timestamp. The claims depend only on the serialized `created_at` being
this rendering of the stored one, never on the concrete string shape. -/
def isoformat (t : Int) : String := "iso8601:" ++ toString t

/-- Mirrors `_serialize_token` (src/server.py and the identical copy in
src/notion.py): `asdict`, replace `created_at` by its ISO rendering when
present, then pop `access_token` and `raw`. -/
def _serialize_token (token : TokenRecord) : JsonObj :=
  let data := asdictTokenRecord token
  let data2 :=
    match dictGet data "created_at" with
    | some (.time t) => dictSet data "created_at" (.str (isoformat t))
    | some _ => data
    | none => data
  dictPop (dictPop data2 "access_token") "raw"

/-- Outcome of `handle_callback` (src/notion_oauth.py): success, the
`ValueError` raised on a failed state consume, or an exception propagated
from the exchange or smoke-test HTTP calls. -/
inductive CallbackOutcome
  | ok (token : TokenRecord) (smoke : JsonObj)
  | invalidState (msg : String)
  | exchangeError (msg : String)
  | smokeError (msg : String)
deriving Repr, DecidableEq

/-- Mirrors `handle_callback` (src/notion_oauth.py): consume the state
(raising `ValueError("Invalid or expired OAuth state.")` on failure), then
exchange the code, store the token, and run the smoke test. `exchange` and
`smoke` are the oracles for the two outbound HTTP calls. Returns the
outcome together with the state store and token store after the call. -/
def handle_callback (code state_val : String)
    (state_store : InMemoryStateStore) (token_store : InMemoryTokenStore)
    (now : Int) (exchange : Except String TokenResponse)
    (smoke : Except String JsonObj) :
    CallbackOutcome × InMemoryStateStore × InMemoryTokenStore :=
  let _ := code
  match state_store.consume state_val now with
  | (none, s2) => (.invalidState "Invalid or expired OAuth state.", s2, token_store)
  | (some _, s2) =>
      match exchange with
      | .error e => (.exchangeError e, s2, token_store)
      | .ok token_response =>
          let (record, t2) := store_token token_response now token_store
          match smoke with
          | .error e => (.smokeError e, s2, t2)
          | .ok smoke_payload => (.ok record smoke_payload, s2, t2)

/-- Values of the JSON response bodies produced by the HTTP layer: strings
or nested objects. -/
inductive BodyVal
  | str (s : String)
  | obj (o : JsonObj)
deriving Repr, DecidableEq

/-- An HTTP response: status code and JSON body. -/
structure Response where
  status : Nat
  body : List (String × BodyVal)
deriving Repr, DecidableEq

/-- Response produced by the framework for an exception the route handler
does not catch (only `ValueError` is caught in the callback route). -/
def internalErrorResponse : Response :=
  { status := 500, body := [("detail", .str "Internal Server Error")] }

/-- Mirrors `notion_oauth_callback` (src/server.py; src/notion.py is
identical): a missing or falsy `code`/`state` query parameter yields a 400
before the state store is touched; a `ValueError` from `handle_callback`
yields a 400 with the exception message; other exceptions propagate to the
framework; success yields a 200 with the sanitized token view and the
smoke-test payload. -/
def notion_oauth_callback (code state_val : Option String)
    (state_store : InMemoryStateStore) (token_store : InMemoryTokenStore)
    (now : Int) (exchange : Except String TokenResponse)
    (smoke : Except String JsonObj) :
    Response × InMemoryStateStore × InMemoryTokenStore :=
  if pyFalsyOptStr code || pyFalsyOptStr state_val then
    ({ status := 400, body := [("error", .str "Missing code or state")] },
     state_store, token_store)
  else
    match handle_callback (code.getD "") (state_val.getD "") state_store
        token_store now exchange smoke with
    | (.invalidState msg, s2, t2) =>
        ({ status := 400, body := [("error", .str msg)] }, s2, t2)
    | (.exchangeError _, s2, t2) => (internalErrorResponse, s2, t2)
    | (.smokeError _, s2, t2) => (internalErrorResponse, s2, t2)
    | (.ok record smoke_payload, s2, t2) =>
        ({ status := 200,
           body := [("token", .obj (_serialize_token record)),
                    ("smoke_test", .obj smoke_payload)] }, s2, t2)

/-- One key object of the JWKS document: its `kid` member (absent members
read as `None` by `key.get("kid")`) and the cryptographic key material
that `algorithms.RSAAlgorithm.from_jwk` reconstructs. -/
structure JwksKey where
  kid : Option String
  material : String
deriving Repr, DecidableEq

/-- Mirrors the JSON object returned by the JWKS endpoint, restricted to
the shape the code reads: members mapping to lists of key objects (the
code only reads the `"keys"` member). Python dict truthiness of the
document is non-emptiness of this list. -/
abbrev Jwks := List (String × List JwksKey)

/-- Mirrors `SupabaseJwksClient` (src/auth.py): the URL, the TTL, and the
mutable cache fields `self._jwks` / `self._fetched_at`. -/
structure SupabaseJwksClient where
  jwks_url : String
  ttl_seconds : Int
  jwks : Option Jwks
  fetched_at : Option Int
deriving Repr, DecidableEq

/-- Python truthiness of `self._jwks`: falsy iff `None` or the empty
dict. -/
def pyTruthyJwks : Option Jwks → Bool
  | none => false
  | some d => !d.isEmpty

/-- Python truthiness of `self._fetched_at`: falsy iff `None` or `0`. -/
def pyTruthyTime : Option Int → Bool
  | none => false
  | some t => t != 0

/-- The freshness guard of `get_jwks`:
`self._jwks and self._fetched_at and (now - self._fetched_at) < self._ttl_seconds`. -/
def SupabaseJwksClient.cacheFresh (c : SupabaseJwksClient) (now : Int) : Bool :=
  pyTruthyJwks c.jwks && pyTruthyTime c.fetched_at
    && decide (now - c.fetched_at.getD 0 < c.ttl_seconds)

/-- Mirrors `SupabaseJwksClient.get_jwks`: serve the cache when fresh,
otherwise perform one blocking fetch (the `fetch` oracle), replace the
cached document wholesale and record the fetch time. The `Nat` component
counts the fetches performed by the call (0 or 1); a failed fetch raises
before the cache fields are assigned. -/
def SupabaseJwksClient.get_jwks (c : SupabaseJwksClient) (now : Int)
    (fetch : Except String Jwks) :
    Except String Jwks × SupabaseJwksClient × Nat :=
  if c.cacheFresh now then
    (.ok (c.jwks.getD []), c, 0)
  else
    match fetch with
    | .error e => (.error e, c, 1)
    | .ok doc => (.ok doc, { c with jwks := some doc, fetched_at := some now }, 1)

/-- Reads `jwks.get("keys", [])`. -/
def jwksKeys (doc : Jwks) : List JwksKey :=
  (dictGet doc "keys").getD []

/-- Failure causes of `get_key`, distinguished in the source by the
exception message: a fetch failure propagated from `get_jwks`, the
`"No JWKS available."` raise on a falsy document, and the
`"No matching JWKS key found."` raise when no key object carries the
requested `kid`. -/
inductive GetKeyError
  | fetchFailed (msg : String)
  | noJwks
  | noMatchingKey
deriving Repr, DecidableEq

/-- Mirrors `SupabaseJwksClient.get_key`: resolve the document via
`get_jwks`, reject a falsy document, then return the first key object
whose `kid` member equals the requested one. Returns the result, the
client state after the call, and the fetch count of the embedded
`get_jwks` call. -/
def SupabaseJwksClient.get_key (c : SupabaseJwksClient) (now : Int)
    (fetch : Except String Jwks) (kid : String) :
    Except GetKeyError JwksKey × SupabaseJwksClient × Nat :=
  match c.get_jwks now fetch with
  | (.error e, c2, n) => (.error (.fetchFailed e), c2, n)
  | (.ok doc, c2, n) =>
      if doc.isEmpty then (.error .noJwks, c2, n)
      else
        match (jwksKeys doc).find? (fun k => k.kid == some kid) with
        | some key => (.ok key, c2, n)
        | none => (.error .noMatchingKey, c2, n)

/-- The header of a parsed JWT as read by `jwt.get_unverified_header`. -/
structure JwtHeader where
  alg : String
  kid : Option String
deriving Repr, DecidableEq

/-- The claim set of a JWT, restricted to the members the code reads. -/
structure JwtPayload where
  iss : Option String
  sub : Option String
  aud : Option String
deriving Repr, DecidableEq

/-- A parsed JWT. `signer` abstracts the cryptographic signature: it names
the (key material, algorithm) pair under which the signature actually
verifies, or `none` for an unsigned token (the "none" algorithm). -/
structure JwtToken where
  header : JwtHeader
  payload : JwtPayload
  signer : Option (String × String)
deriving Repr, DecidableEq

/-- Models the signature check performed by PyJWT: the signature verifies
precisely when the token was signed with the given key material under the
algorithm named in its own header. -/
def sigVerifies (t : JwtToken) (key : JwksKey) : Bool :=
  t.signer == some (key.material, t.header.alg)

/-- Failure causes of `verify_jwt`: the `"JWT missing kid header."` raise,
a `get_key` failure, and the PyJWT `jwt.decode` exceptions. -/
inductive JwtError
  | missingKid
  | keyLookup (e : GetKeyError)
  | invalidAlgorithm
  | signatureInvalid
  | invalidAudience
  | invalidIssuer
deriving Repr, DecidableEq

/-- Models the PyJWT `jwt.decode(token, key=key, algorithms=[...],
audience=..., issuer=...)` call: a header algorithm outside the allowed
list (the "none" algorithm is never in the list) is rejected, then the
signature is verified against the resolved key, then the audience and
issuer claims are validated against the configured values. -/
def jwtDecode (token : JwtToken) (key : JwksKey) (allowed_algs : List String)
    (audience issuer : String) : Except JwtError JwtPayload :=
  if !(allowed_algs.contains token.header.alg) then .error .invalidAlgorithm
  else if !(sigVerifies token key) then .error .signatureInvalid
  else if token.payload.aud != some audience then .error .invalidAudience
  else if token.payload.iss != some issuer then .error .invalidIssuer
  else .ok token.payload

/-- Mirrors `verify_jwt` (src/auth.py): read `kid` from the unverified
header (a missing or empty `kid` raises), resolve the key through the
JWKS client, then decode with the single allowed algorithm `"RS256"` and
the configured audience and issuer. Returns the result and the client
state after the call. -/
def verify_jwt (token : JwtToken) (jwks_client : SupabaseJwksClient)
    (now : Int) (fetch : Except String Jwks) (audience issuer : String) :
    Except JwtError JwtPayload × SupabaseJwksClient :=
  if pyFalsyOptStr token.header.kid then (.error .missingKid, jwks_client)
  else
    match jwks_client.get_key now fetch (token.header.kid.getD "") with
    | (.error e, c2, _) => (.error (.keyLookup e), c2)
    | (.ok key, c2, _) =>
        (jwtDecode token key ["RS256"] audience issuer, c2)

/-- Mirrors `PrincipalRecord` (src/auth.py). -/
structure PrincipalRecord where
  iss : String
  sub : String
  created_at : Int
deriving Repr, DecidableEq

/-- Mirrors `InMemoryPrincipalStore` (src/auth.py): the dict
`self._records` keyed by the joined string `f"{iss}|{sub}"`. -/
structure InMemoryPrincipalStore where
  records : List (String × PrincipalRecord)
deriving Repr, DecidableEq

/-- Mirrors `InMemoryPrincipalStore.get_or_create`: look the joined key
up; on a miss, create a record for the pair and store it. Returns the
record and the store after the call. -/
def InMemoryPrincipalStore.get_or_create (s : InMemoryPrincipalStore)
    (iss sub : String) (now : Int) :
    PrincipalRecord × InMemoryPrincipalStore :=
  let key := iss ++ "|" ++ sub
  match dictGet s.records key with
  | some record => (record, s)
  | none =>
      let record : PrincipalRecord := { iss := iss, sub := sub, created_at := now }
      (record, { records := dictSet s.records key record })

/-- Mirrors `_is_public_path` (src/auth.py). -/
def _is_public_path (path : String) (public_paths : List String) : Bool :=
  public_paths.any (fun p => pyStartsWith path p)

/-- The slice of an inbound request the middleware reads: the URL path and
the `authorization` header (`request.headers.get("authorization", "")`
reads `none` as `""`). -/
structure PyRequest where
  path : String
  authorization : Option String
deriving Repr, DecidableEq

/-- Result of the middleware: the request is passed downstream (with the
principal and claim set attached for protected paths, with neither for
public paths), or rejected with a JSON response. -/
inductive Admission
  | admitted (principal : Option PrincipalRecord) (payload : Option JwtPayload)
  | rejected (resp : Response)
deriving Repr, DecidableEq

/-- Renders a `verify_jwt` failure as the `str(exc)` interpolated into the
middleware's `"Invalid token: ..."` body. The concrete texts model the
exception messages; the claims depend only on the body carrying an
`error` key. -/
def jwtErrorMsg : JwtError → String
  | .missingKid => "JWT missing kid header."
  | .keyLookup (.fetchFailed msg) => msg
  | .keyLookup .noJwks => "No JWKS available."
  | .keyLookup .noMatchingKey => "No matching JWKS key found."
  | .invalidAlgorithm => "The specified alg value is not allowed"
  | .signatureInvalid => "Signature verification failed"
  | .invalidAudience => "Invalid audience"
  | .invalidIssuer => "Invalid issuer"

/-- Mirrors the constructor-injected state of `JWTAuthMiddleware`
(src/auth.py). -/
structure JWTAuthMiddleware where
  jwks_client : SupabaseJwksClient
  principal_store : InMemoryPrincipalStore
  public_paths : List String
deriving Repr, DecidableEq

/-- Mirrors `JWTAuthMiddleware.dispatch` (src/auth.py): admit public paths
untouched; require a `Bearer ` authorization header; parse and verify the
token (`decode` models the parsing of the compact serialization performed
inside `jwt.get_unverified_header`, `none` standing for an unparseable
token whose exception the `except` clause turns into a 401); reject an
empty `iss` or `sub` claim; otherwise resolve the principal and admit.
Returns the admission decision and the middleware state after the call. -/
def JWTAuthMiddleware.dispatch (m : JWTAuthMiddleware) (request : PyRequest)
    (now : Int) (fetch : Except String Jwks) (audience issuer : String)
    (decode : String → Option JwtToken) : Admission × JWTAuthMiddleware :=
  if _is_public_path request.path m.public_paths then
    (.admitted none none, m)
  else
    let auth_header := request.authorization.getD ""
    if !(pyStartsWith auth_header "Bearer ") then
      (.rejected { status := 401,
                   body := [("error", .str "Missing Bearer token.")] }, m)
    else
      match decode (auth_header.drop 7) with
      | none =>
          (.rejected { status := 401,
                       body := [("error", .str "Invalid token: Not enough segments")] }, m)
      | some token =>
          match verify_jwt token m.jwks_client now fetch audience issuer with
          | (.error e, c2) =>
              (.rejected { status := 401,
                           body := [("error", .str ("Invalid token: " ++ jwtErrorMsg e))] },
               { m with jwks_client := c2 })
          | (.ok payload, c2) =>
              let iss := payload.iss.getD ""
              let sub := payload.sub.getD ""
              if iss == "" || sub == "" then
                (.rejected { status := 401,
                             body := [("error", .str "Token missing iss/sub.")] },
                 { m with jwks_client := c2 })
              else
                let (principal, ps2) := m.principal_store.get_or_create iss sub now
                (.admitted (some principal) (some payload),
                 { m with jwks_client := c2, principal_store := ps2 })

/-- The key-set document that `get_key` searches on a given call: the
result of the embedded `get_jwks` call, empty on a fetch failure. -/
def effectiveJwks (c : SupabaseJwksClient) (now : Int)
    (fetch : Except String Jwks) : Jwks :=
  match (c.get_jwks now fetch).1 with
  | .ok doc => doc
  | .error _ => []

/-- Whether an `Except` result is a success. -/
def isOkB {ε α : Type} : Except ε α → Bool
  | .ok _ => true
  | .error _ => false

/-! Helper lemmas about the dict embedding and the state store. -/

theorem dictGet_dictSet_self {α : Type} (d : List (String × α)) (k : String)
    (v : α) : dictGet (dictSet d k v) k = some v := by
  induction d with
  | nil => simp [dictGet, dictSet]
  | cons p rest ih =>
      obtain ⟨k0, v0⟩ := p
      by_cases h : k0 = k
      · simp [dictGet, dictSet, h]
      · simp [dictGet, dictSet, h, ih]

theorem consume_fail_store (s : InMemoryStateStore) (v : String) (n : Int)
    (h : (s.consume v n).1 = none) : s.consume v n = (none, s) := by
  unfold InMemoryStateStore.consume at h ⊢
  cases hg : dictGet s.states v with
  | none => simp [hg]
  | some record =>
      simp only [hg] at h ⊢
      by_cases hc : record.consumed_at.isSome
      · simp [hc]
      · by_cases he : record.expires_at ≤ n
        · simp [hc, he]
        · simp [hc, he] at h

theorem consume_ok_shape (s : InMemoryStateStore) (v : String) (n : Int)
    (r : OAuthState) (s2 : InMemoryStateStore)
    (h : s.consume v n = (some r, s2)) :
    r.consumed_at = some n ∧ s2.states = dictSet s.states v r := by
  unfold InMemoryStateStore.consume at h
  cases hg : dictGet s.states v with
  | none => simp [hg] at h
  | some record =>
      simp only [hg] at h
      by_cases hc : record.consumed_at.isSome
      · simp [hc] at h
      · by_cases he : record.expires_at ≤ n
        · simp [hc, he] at h
        · simp only [hc, he, if_neg, if_false, Bool.false_eq_true] at h
          simp at h
          obtain ⟨hr, hs⟩ := h
          subst hr
          exact ⟨rfl, hs.symm ▸ rfl⟩

/-- C1: every state issued by `create` is consumable at most once: the
first `consume` strictly before the expiry deadline succeeds and stamps
`consumed_at` with the consuming time; any `consume` of a value whose
consume just succeeded fails and returns the store unchanged (so every
subsequent attempt keeps failing); and a `consume` of the fresh,
never-consumed state at or after its deadline fails. -/
theorem claim_C1_state_single_use
    (s0 : InMemoryStateStore) (v : String) (now ttl : Int)
    (pid : Option String) (now2 : Int) :
    (now2 < now + ttl →
      ((s0.create v now ttl pid).2.consume v now2).1 =
        some { state := v, created_at := now, expires_at := now + ttl,
               consumed_at := some now2, principal_id := pid })
    ∧ (∀ (s s2 : InMemoryStateStore) (r : OAuthState) (n n2 : Int),
        s.consume v n = (some r, s2) → s2.consume v n2 = (none, s2))
    ∧ (now + ttl ≤ now2 → ((s0.create v now ttl pid).2.consume v now2).1 = none) := by
  refine ⟨?_, ?_, ?_⟩
  · intro h
    have hne : ¬ (now + ttl ≤ now2) := not_le.mpr h
    simp [InMemoryStateStore.create, InMemoryStateStore.consume,
      dictGet_dictSet_self, hne]
  · intro s s2 r n n2 h
    obtain ⟨hc, hs⟩ := consume_ok_shape s v n r s2 h
    unfold InMemoryStateStore.consume
    simp [hs, dictGet_dictSet_self, hc]
  · intro h
    simp [InMemoryStateStore.create, InMemoryStateStore.consume,
      dictGet_dictSet_self, h]

/-- C1 witness: with TTL 600 and creation at time 0, the consume at 100
succeeds with `consumed_at = 100`, the immediate repeat fails leaving the
store unchanged, and a fresh state consumed at 600 fails. -/
theorem claim_C1_witness :
    (((InMemoryStateStore.mk []).create "s" 0 600 none).2.consume "s" 100).1 =
      some { state := "s", created_at := 0, expires_at := 600,
             consumed_at := some 100, principal_id := none }
    ∧ ((InMemoryStateStore.mk
          [("s", { state := "s", created_at := 0, expires_at := 600,
                   consumed_at := some 100, principal_id := none })]).consume
        "s" 101) =
      (none, InMemoryStateStore.mk
          [("s", { state := "s", created_at := 0, expires_at := 600,
                   consumed_at := some 100, principal_id := none })])
    ∧ (((InMemoryStateStore.mk []).create "s" 0 600 none).2.consume "s" 600).1 =
      none := by
  refine ⟨?_, ?_, ?_⟩
  · exact (claim_C1_state_single_use (InMemoryStateStore.mk []) "s" 0 600 none
      100).1 (by decide)
  · exact (claim_C1_state_single_use (InMemoryStateStore.mk []) "s" 0 600 none
      100).2.1
      (InMemoryStateStore.mk
        [("s", { state := "s", created_at := 0, expires_at := 600,
                 consumed_at := none, principal_id := none })])
      (InMemoryStateStore.mk
        [("s", { state := "s", created_at := 0, expires_at := 600,
                 consumed_at := some 100, principal_id := none })])
      { state := "s", created_at := 0, expires_at := 600,
        consumed_at := some 100, principal_id := none }
      100 101 (by decide)
  · exact (claim_C1_state_single_use (InMemoryStateStore.mk []) "s" 0 600 none
      600).2.2 (by decide)

/-- C3: no callback failure leaves partial state behind: a failing
consume makes `handle_callback` surface the `ValueError` with both stores
exactly as they were, and a failing code exchange leaves the token store
untouched. -/
theorem claim_C3_no_partial_state
    (code v : String) (s : InMemoryStateStore) (t : InMemoryTokenStore)
    (now : Int) (exchange : Except String TokenResponse)
    (smoke : Except String JsonObj) :
    ((s.consume v now).1 = none →
      handle_callback code v s t now exchange smoke =
        (.invalidState "Invalid or expired OAuth state.", s, t))
    ∧ (∀ e, exchange = .error e →
        (handle_callback code v s t now exchange smoke).2.2 = t) := by
  constructor
  · intro h
    have hc := consume_fail_store s v now h
    simp [handle_callback, hc]
  · intro e he
    subst he
    unfold handle_callback
    cases hcon : s.consume v now with
    | mk r s2 => cases r <;> simp

/-- C3 witness: consuming against the empty store fails and leaves both
stores untouched, and a rejected exchange leaves the populated token
store untouched. -/
theorem claim_C3_witness :
    handle_callback "c" "s" (InMemoryStateStore.mk [])
        (InMemoryTokenStore.mk none) 5 (.ok []) (.ok []) =
      (.invalidState "Invalid or expired OAuth state.",
       InMemoryStateStore.mk [], InMemoryTokenStore.mk none)
    ∧ (handle_callback "c" "s"
        (InMemoryStateStore.mk
          [("s", { state := "s", created_at := 0, expires_at := 600,
                   consumed_at := none, principal_id := none })])
        (InMemoryTokenStore.mk none) 5 (.error "rejected") (.ok [])).2.2 =
      InMemoryTokenStore.mk none := by
  constructor
  · exact (claim_C3_no_partial_state "c" "s" (InMemoryStateStore.mk [])
      (InMemoryTokenStore.mk none) 5 (.ok []) (.ok [])).1 (by decide)
  · exact (claim_C3_no_partial_state "c" "s"
      (InMemoryStateStore.mk
        [("s", { state := "s", created_at := 0, expires_at := 600,
                 consumed_at := none, principal_id := none })])
      (InMemoryTokenStore.mk none) 5 (.error "rejected") (.ok [])).2
      "rejected" rfl

theorem tokenStore_foldl_last (l : List TokenRecord) (s0 : InMemoryTokenStore) :
    (l.foldl (fun s r => s.save r) s0).last_token =
      match l.getLast? with
      | some r => some r
      | none => s0.last_token := by
  induction l generalizing s0 with
  | nil => rfl
  | cons a rest ih =>
      cases rest with
      | nil => simp [InMemoryTokenStore.save]
      | cons b rest2 =>
          rw [List.foldl_cons, ih, List.getLast?_cons_cons]
          cases h : (b :: rest2).getLast? with
          | some r => rfl
          | none =>
              rw [List.getLast?_eq_none_iff] at h
              exact absurd h (List.cons_ne_nil b rest2)

/-- C9: the token store is last-write-wins: after any sequence of saves
into a fresh store, `get` returns exactly the most recent saved record
(and nothing when no save has occurred), and the save performed by
`store_token` makes `get` return the new record whatever the store held
before. -/
theorem claim_C9_last_write_wins
    (l : List TokenRecord) (resp : TokenResponse) (now : Int)
    (store : InMemoryTokenStore) :
    (l.foldl (fun s r => s.save r) (InMemoryTokenStore.mk none)).get =
      l.getLast?
    ∧ (store_token resp now store).2.get = some (store_token resp now store).1 := by
  constructor
  · rw [InMemoryTokenStore.get, tokenStore_foldl_last]
    cases l.getLast? <;> rfl
  · rfl

/-- C10: at the callback endpoint an empty `code` or `state` query
parameter behaves exactly like an absent one: the response is the
constant 400 body with the `error` key, and both stores come back
unchanged (in particular the state store is never consulted and no state
is consumed). -/
theorem claim_C10_empty_params_like_absent
    (code_val state_val2 : Option String) (s : InMemoryStateStore)
    (t : InMemoryTokenStore) (now : Int)
    (exchange : Except String TokenResponse) (smoke : Except String JsonObj) :
    notion_oauth_callback (some "") state_val2 s t now exchange smoke =
        notion_oauth_callback none state_val2 s t now exchange smoke
    ∧ notion_oauth_callback (some "") state_val2 s t now exchange smoke =
        ({ status := 400, body := [("error", .str "Missing code or state")] },
         s, t)
    ∧ notion_oauth_callback code_val (some "") s t now exchange smoke =
        notion_oauth_callback code_val none s t now exchange smoke
    ∧ notion_oauth_callback code_val (some "") s t now exchange smoke =
        ({ status := 400, body := [("error", .str "Missing code or state")] },
         s, t) := by
  refine ⟨?_, ?_, ?_, ?_⟩ <;>
    simp [notion_oauth_callback, pyFalsyOptStr]

/-- C2 counterexample: three stores realizing the three distinct failure
causes (unknown value, already-consumed, expired) at the same state value
produce literally identical consume results — the bare `none`, carrying
no cause — and literally identical callback responses, so neither the
consume operation nor the BadRequest response reports which cause
occurred. -/
theorem claim_C2_counterexample :
    ((InMemoryStateStore.mk []).consume "s" 50).1 = none
    ∧ ((InMemoryStateStore.mk
          [("s", { state := "s", created_at := 0, expires_at := 600,
                   consumed_at := some 1, principal_id := none })]).consume
        "s" 50).1 = none
    ∧ ((InMemoryStateStore.mk
          [("s", { state := "s", created_at := 0, expires_at := 40,
                   consumed_at := none, principal_id := none })]).consume
        "s" 50).1 = none
    ∧ (notion_oauth_callback (some "c") (some "s") (InMemoryStateStore.mk [])
        (InMemoryTokenStore.mk none) 50 (.ok []) (.ok [])).1 =
      (notion_oauth_callback (some "c") (some "s")
        (InMemoryStateStore.mk
          [("s", { state := "s", created_at := 0, expires_at := 600,
                   consumed_at := some 1, principal_id := none })])
        (InMemoryTokenStore.mk none) 50 (.ok []) (.ok [])).1
    ∧ (notion_oauth_callback (some "c") (some "s")
        (InMemoryStateStore.mk
          [("s", { state := "s", created_at := 0, expires_at := 600,
                   consumed_at := some 1, principal_id := none })])
        (InMemoryTokenStore.mk none) 50 (.ok []) (.ok [])).1 =
      (notion_oauth_callback (some "c") (some "s")
        (InMemoryStateStore.mk
          [("s", { state := "s", created_at := 0, expires_at := 40,
                   consumed_at := none, principal_id := none })])
        (InMemoryTokenStore.mk none) 50 (.ok []) (.ok [])).1 := by
  decide

/-- C2 (amended): `consume` fails exactly for the three causes — unknown
value, already consumed, or expired — but signals all of them uniformly
as the absence of a result, and on any such failure the callback route
answers 400 with the single generic message
`Invalid or expired OAuth state.` regardless of the cause. -/
theorem claim_C2_uniform_failure_signal
    (s : InMemoryStateStore) (v : String) (now : Int) (code : String)
    (t : InMemoryTokenStore) (exchange : Except String TokenResponse)
    (smoke : Except String JsonObj) :
    ((s.consume v now).1 = none ↔
      dictGet s.states v = none ∨
      ∃ r, dictGet s.states v = some r ∧
        (r.consumed_at ≠ none ∨ r.expires_at ≤ now))
    ∧ (code ≠ "" → v ≠ "" → (s.consume v now).1 = none →
        (notion_oauth_callback (some code) (some v) s t now exchange smoke).1 =
          { status := 400,
            body := [("error", .str "Invalid or expired OAuth state.")] }) := by
  constructor
  · unfold InMemoryStateStore.consume
    cases hg : dictGet s.states v with
    | none => simp [hg]
    | some record =>
        simp only [hg]
        by_cases hc : record.consumed_at.isSome
        · simp only [hc, if_true]
          simp [Option.isSome_iff_ne_none.mp hc]
        · by_cases he : record.expires_at ≤ now
          · simp [hc, he]
          · simp only [hc, if_false, Bool.false_eq_true, he]
            simp [Option.not_isSome_iff_eq_none.mp hc, he]
  · intro hcode hv h
    have hc := consume_fail_store s v now h
    simp [notion_oauth_callback, pyFalsyOptStr, hcode, hv, handle_callback, hc]

/-- C2 witness: for the empty store the consume of `s` at 50 fails (the
unknown-value cause holds), and the callback route answers the generic
400. -/
theorem claim_C2_witness :
    (((InMemoryStateStore.mk []).consume "s" 50).1 = none ↔
      dictGet (InMemoryStateStore.mk []).states "s" = none ∨
      ∃ r, dictGet (InMemoryStateStore.mk []).states "s" = some r ∧
        (r.consumed_at ≠ none ∨ r.expires_at ≤ 50))
    ∧ (notion_oauth_callback (some "c") (some "s") (InMemoryStateStore.mk [])
        (InMemoryTokenStore.mk none) 50 (.ok []) (.ok [])).1 =
      { status := 400,
        body := [("error", .str "Invalid or expired OAuth state.")] } := by
  constructor
  · exact (claim_C2_uniform_failure_signal (InMemoryStateStore.mk []) "s" 50
      "c" (InMemoryTokenStore.mk none) (.ok []) (.ok [])).1
  · exact (claim_C2_uniform_failure_signal (InMemoryStateStore.mk []) "s" 50
      "c" (InMemoryTokenStore.mk none) (.ok []) (.ok [])).2
      (by decide) (by decide) (by decide)

/-- C7 counterexample: the registry keys by the joined string
`iss ++ "|" ++ sub`, so the pairs `("a", "b|c")` and `("a|b", "c")`
collide: after the first pair is registered, the first call for the
second pair creates nothing and returns the first pair's record — its
issuer is `"a"`, not the requested `"a|b"` — refuting the claim that the
first call with a pair creates and stores a record keyed by that pair. -/
theorem claim_C7_counterexample :
    (((InMemoryPrincipalStore.mk []).get_or_create "a" "b|c" 0).2.get_or_create
        "a|b" "c" 1).1 =
      { iss := "a", sub := "b|c", created_at := 0 }
    ∧ (((InMemoryPrincipalStore.mk []).get_or_create "a" "b|c" 0).2.get_or_create
        "a|b" "c" 1).1.iss ≠ "a|b"
    ∧ (((InMemoryPrincipalStore.mk []).get_or_create "a" "b|c" 0).2.get_or_create
        "a|b" "c" 1).2 =
      ((InMemoryPrincipalStore.mk []).get_or_create "a" "b|c" 0).2 := by
  decide

/-- C7 (amended): identity stability holds — for every store, calling
`get_or_create` twice with the same (issuer, subject) pair returns the
same record twice and the second call leaves the store unchanged — and
the first call creates and stores a record for the pair provided no
previously registered pair shares the same joined key `iss ++ "|" ++ sub`
(distinct pairs whose joins coincide resolve to one shared record). -/
theorem claim_C7_identity_stability
    (s : InMemoryPrincipalStore) (iss sub : String) (now now2 : Int) :
    ((s.get_or_create iss sub now).2.get_or_create iss sub now2) =
      ((s.get_or_create iss sub now).1, (s.get_or_create iss sub now).2)
    ∧ (dictGet s.records (iss ++ "|" ++ sub) = none →
        (s.get_or_create iss sub now).1 =
          { iss := iss, sub := sub, created_at := now }
        ∧ (s.get_or_create iss sub now).2.records =
          dictSet s.records (iss ++ "|" ++ sub)
            { iss := iss, sub := sub, created_at := now }) := by
  constructor
  · unfold InMemoryPrincipalStore.get_or_create
    cases hg : dictGet s.records (iss ++ "|" ++ sub) with
    | some record => simp [hg]
    | none => simp [hg, dictGet_dictSet_self]
  · intro hg
    unfold InMemoryPrincipalStore.get_or_create
    simp [hg]

/-- C7 witness: on the empty store the pair `("i", "u")` is created on
first sight and returned unchanged by the second call. -/
theorem claim_C7_witness :
    (((InMemoryPrincipalStore.mk []).get_or_create "i" "u" 3).2.get_or_create
        "i" "u" 9) =
      (((InMemoryPrincipalStore.mk []).get_or_create "i" "u" 3).1,
       ((InMemoryPrincipalStore.mk []).get_or_create "i" "u" 3).2)
    ∧ ((InMemoryPrincipalStore.mk []).get_or_create "i" "u" 3).1 =
      { iss := "i", sub := "u", created_at := 3 } := by
  constructor
  · exact (claim_C7_identity_stability (InMemoryPrincipalStore.mk []) "i" "u"
      3 9).1
  · exact ((claim_C7_identity_stability (InMemoryPrincipalStore.mk []) "i" "u"
      3 9).2 (by decide)).1

/-- C4 counterexample: a cached document fetched 1 second ago — well
within the default TTL of 3600 — is refetched anyway when it is the empty
JSON object, because the freshness guard tests Python truthiness of the
cached dict: the call performs one fetch (count 1), discards the cached
document and serves the refetched one, refuting the claim that a lookup
within the TTL window never triggers a refetch. -/
theorem claim_C4_counterexample :
    (SupabaseJwksClient.mk "u" 3600 (some []) (some 5)).get_jwks 6
        (.ok [("keys", [{ kid := some "k1", material := "m" }])]) =
      (.ok [("keys", [{ kid := some "k1", material := "m" }])],
       SupabaseJwksClient.mk "u" 3600
         (some [("keys", [{ kid := some "k1", material := "m" }])]) (some 6),
       1)
    ∧ ((6 : Int) - 5 < 3600) = True := by
  constructor
  · decide
  · decide

/-- C4 (amended): when the cached document is non-empty, its recorded
fetch time is nonzero and less than `ttl_seconds` old, the lookup serves
the cache with no refetch and leaves the client untouched; otherwise
(absent, stale, empty document, or zero fetch time) exactly one blocking
refetch replaces the cached document wholesale and records the new fetch
time — and via `get_key` this replacement happens even when the
requested `kid` is absent from the refreshed document. -/
theorem claim_C4_cache_refresh
    (c : SupabaseJwksClient) (now : Int) (fetch : Except String Jwks)
    (doc : Jwks) (kid : String) :
    (c.cacheFresh now = true →
      c.get_jwks now fetch = (.ok (c.jwks.getD []), c, 0))
    ∧ (c.cacheFresh now = false →
      c.get_jwks now (.ok doc) =
        (.ok doc, { c with jwks := some doc, fetched_at := some now }, 1))
    ∧ (c.cacheFresh now = false → doc ≠ [] →
      (jwksKeys doc).find? (fun k => k.kid == some kid) = none →
      c.get_key now (.ok doc) kid =
        (.error .noMatchingKey,
         { c with jwks := some doc, fetched_at := some now }, 1)) := by
  refine ⟨?_, ?_, ?_⟩
  · intro h
    simp [SupabaseJwksClient.get_jwks, h]
  · intro h
    simp [SupabaseJwksClient.get_jwks, h]
  · intro h hne hfind
    simp [SupabaseJwksClient.get_key, SupabaseJwksClient.get_jwks, h, hne,
      hfind]

/-- C4 witness: a fresh non-empty cache at 1 second of age is served with
no refetch; a stale client (last fetch 4000 seconds ago) refetches once
and replaces the document; and the stale `get_key` for an absent `kid`
still replaces the document and records the fetch time. -/
theorem claim_C4_witness :
    (SupabaseJwksClient.mk "u" 3600
        (some [("keys", [{ kid := some "k1", material := "m" }])])
        (some 5)).get_jwks 6 (.error "down") =
      (.ok [("keys", [{ kid := some "k1", material := "m" }])],
       SupabaseJwksClient.mk "u" 3600
         (some [("keys", [{ kid := some "k1", material := "m" }])]) (some 5),
       0)
    ∧ (SupabaseJwksClient.mk "u" 3600
        (some [("keys", [{ kid := some "k1", material := "m" }])])
        (some 5)).get_jwks 4005
        (.ok [("keys", [{ kid := some "k2", material := "m2" }])]) =
      (.ok [("keys", [{ kid := some "k2", material := "m2" }])],
       SupabaseJwksClient.mk "u" 3600
         (some [("keys", [{ kid := some "k2", material := "m2" }])])
         (some 4005),
       1)
    ∧ (SupabaseJwksClient.mk "u" 3600
        (some [("keys", [{ kid := some "k1", material := "m" }])])
        (some 5)).get_key 4005
        (.ok [("keys", [{ kid := some "k2", material := "m2" }])]) "k9" =
      (.error .noMatchingKey,
       SupabaseJwksClient.mk "u" 3600
         (some [("keys", [{ kid := some "k2", material := "m2" }])])
         (some 4005),
       1) := by
  refine ⟨?_, ?_, ?_⟩
  · exact (claim_C4_cache_refresh
      (SupabaseJwksClient.mk "u" 3600
        (some [("keys", [{ kid := some "k1", material := "m" }])]) (some 5))
      6 (.error "down")
      [("keys", [{ kid := some "k2", material := "m2" }])] "k9").1 (by decide)
  · exact (claim_C4_cache_refresh
      (SupabaseJwksClient.mk "u" 3600
        (some [("keys", [{ kid := some "k1", material := "m" }])]) (some 5))
      4005 (.error "down")
      [("keys", [{ kid := some "k2", material := "m2" }])] "k9").2.1
      (by decide)
  · exact (claim_C4_cache_refresh
      (SupabaseJwksClient.mk "u" 3600
        (some [("keys", [{ kid := some "k1", material := "m" }])]) (some 5))
      4005 (.error "down")
      [("keys", [{ kid := some "k2", material := "m2" }])] "k9").2.2
      (by decide) (by decide) (by decide)

theorem get_key_ok_found
    (c : SupabaseJwksClient) (now : Int) (fetch : Except String Jwks)
    (kid : String) (key : JwksKey) (c2 : SupabaseJwksClient) (n : Nat)
    (h : c.get_key now fetch kid = (.ok key, c2, n)) :
    (jwksKeys (effectiveJwks c now fetch)).find? (fun k => k.kid == some kid) =
      some key := by
  unfold SupabaseJwksClient.get_key at h
  unfold effectiveJwks
  rcases hj : c.get_jwks now fetch with ⟨r, c3, n3⟩
  rw [hj] at h
  cases r with
  | error e => simp at h
  | ok doc =>
      simp only
      cases hemp : doc.isEmpty with
      | true => simp [hemp] at h
      | false =>
          simp only [hemp, Bool.false_eq_true, if_false] at h
          cases hf : (jwksKeys doc).find? (fun k => k.kid == some kid) with
          | none => rw [hf] at h; simp at h
          | some k2 =>
              rw [hf] at h
              simp only [Prod.mk.injEq, Except.ok.injEq] at h
              rw [h.1]

theorem verify_jwt_ok_characterization
    (token : JwtToken) (c : SupabaseJwksClient) (now : Int)
    (fetch : Except String Jwks) (audience issuer : String) (p : JwtPayload)
    (h : (verify_jwt token c now fetch audience issuer).1 = .ok p) :
    token.header.alg = "RS256" ∧ token.payload.aud = some audience ∧
    token.payload.iss = some issuer ∧ pyFalsyOptStr token.header.kid = false ∧
    (∃ key, (jwksKeys (effectiveJwks c now fetch)).find?
        (fun k => k.kid == some (token.header.kid.getD "")) = some key ∧
      sigVerifies token key = true) ∧ p = token.payload := by
  unfold verify_jwt at h
  cases hkid : pyFalsyOptStr token.header.kid with
  | true => rw [hkid] at h; simp at h
  | false =>
      rw [hkid] at h
      simp only [Bool.false_eq_true, if_false] at h
      rcases hk : c.get_key now fetch (token.header.kid.getD "") with ⟨res, c2, n⟩
      rw [hk] at h
      cases res with
      | error e => simp at h
      | ok key =>
          simp only at h
          unfold jwtDecode at h
          split at h
          next => exact absurd h (by simp)
          next halg =>
            split at h
            next => exact absurd h (by simp)
            next hsig =>
              split at h
              next => exact absurd h (by simp)
              next haud =>
                split at h
                next => exact absurd h (by simp)
                next hiss =>
                  simp only [Except.ok.injEq] at h
                  refine ⟨by simpa using halg, by simpa using haud,
                    by simpa using hiss, rfl,
                    ⟨key, get_key_ok_found c now fetch _ key c2 n hk,
                      by simpa using hsig⟩, h.symm⟩

/-- C5: token verification rejects every token whose header names an
algorithm other than the single configured `"RS256"` (in particular the
"none" algorithm), every token whose audience or issuer claim mismatches
the configured values, every token whose header lacks a `kid` (or carries
an empty one), and every token whose `kid` is absent from the key-set
document in effect; moreover a verification that succeeds certifies all
of these conditions at once. -/
theorem claim_C5_verification_rejections
    (token : JwtToken) (c : SupabaseJwksClient) (now : Int)
    (fetch : Except String Jwks) (audience issuer : String) :
    (token.header.alg ≠ "RS256" →
      isOkB (verify_jwt token c now fetch audience issuer).1 = false)
    ∧ (token.payload.aud ≠ some audience →
      isOkB (verify_jwt token c now fetch audience issuer).1 = false)
    ∧ (token.payload.iss ≠ some issuer →
      isOkB (verify_jwt token c now fetch audience issuer).1 = false)
    ∧ (pyFalsyOptStr token.header.kid = true →
      (verify_jwt token c now fetch audience issuer).1 = .error .missingKid)
    ∧ (∀ kid, token.header.kid = some kid →
      (jwksKeys (effectiveJwks c now fetch)).find?
          (fun k => k.kid == some kid) = none →
      isOkB (verify_jwt token c now fetch audience issuer).1 = false)
    ∧ (∀ p, (verify_jwt token c now fetch audience issuer).1 = .ok p →
      token.header.alg = "RS256" ∧ token.payload.aud = some audience ∧
      token.payload.iss = some issuer ∧ p = token.payload) := by
  refine ⟨?_, ?_, ?_, ?_, ?_, ?_⟩
  · intro hne
    cases hres : (verify_jwt token c now fetch audience issuer).1 with
    | error e => rfl
    | ok p =>
        exact absurd (verify_jwt_ok_characterization token c now fetch
          audience issuer p hres).1 hne
  · intro hne
    cases hres : (verify_jwt token c now fetch audience issuer).1 with
    | error e => rfl
    | ok p =>
        exact absurd (verify_jwt_ok_characterization token c now fetch
          audience issuer p hres).2.1 hne
  · intro hne
    cases hres : (verify_jwt token c now fetch audience issuer).1 with
    | error e => rfl
    | ok p =>
        exact absurd (verify_jwt_ok_characterization token c now fetch
          audience issuer p hres).2.2.1 hne
  · intro hkid
    simp [verify_jwt, hkid]
  · intro kid hkid hfind
    cases hres : (verify_jwt token c now fetch audience issuer).1 with
    | error e => rfl
    | ok p =>
        obtain ⟨-, -, -, -, ⟨key, hkey, -⟩, -⟩ :=
          verify_jwt_ok_characterization token c now fetch audience issuer p
            hres
        rw [hkid] at hkey
        simp only [Option.getD_some] at hkey
        rw [hfind] at hkey
        exact absurd hkey (by simp)
  · intro p hres
    obtain ⟨h1, h2, h3, -, -, h6⟩ :=
      verify_jwt_ok_characterization token c now fetch audience issuer p hres
    exact ⟨h1, h2, h3, h6⟩

/-- C5 witness: concrete rejections — a token signed under the "none"
algorithm, a wrong audience, a wrong issuer, a missing `kid`, an unknown
`kid` — and one concrete verification that succeeds against a fresh
cache, certifying its algorithm, audience and issuer. -/
theorem claim_C5_witness :
    isOkB (verify_jwt
      { header := { alg := "none", kid := some "k1" },
        payload := { iss := some "iss", sub := some "u", aud := some "aud" },
        signer := none }
      (SupabaseJwksClient.mk "u" 3600
        (some [("keys", [{ kid := some "k1", material := "m" }])]) (some 5))
      6 (.error "down") "aud" "iss").1 = false
    ∧ isOkB (verify_jwt
      { header := { alg := "RS256", kid := some "k1" },
        payload := { iss := some "iss", sub := some "u", aud := some "bad" },
        signer := some ("m", "RS256") }
      (SupabaseJwksClient.mk "u" 3600
        (some [("keys", [{ kid := some "k1", material := "m" }])]) (some 5))
      6 (.error "down") "aud" "iss").1 = false
    ∧ isOkB (verify_jwt
      { header := { alg := "RS256", kid := some "k1" },
        payload := { iss := some "bad", sub := some "u", aud := some "aud" },
        signer := some ("m", "RS256") }
      (SupabaseJwksClient.mk "u" 3600
        (some [("keys", [{ kid := some "k1", material := "m" }])]) (some 5))
      6 (.error "down") "aud" "iss").1 = false
    ∧ (verify_jwt
      { header := { alg := "RS256", kid := none },
        payload := { iss := some "iss", sub := some "u", aud := some "aud" },
        signer := some ("m", "RS256") }
      (SupabaseJwksClient.mk "u" 3600
        (some [("keys", [{ kid := some "k1", material := "m" }])]) (some 5))
      6 (.error "down") "aud" "iss").1 = .error .missingKid
    ∧ isOkB (verify_jwt
      { header := { alg := "RS256", kid := some "k9" },
        payload := { iss := some "iss", sub := some "u", aud := some "aud" },
        signer := some ("m", "RS256") }
      (SupabaseJwksClient.mk "u" 3600
        (some [("keys", [{ kid := some "k1", material := "m" }])]) (some 5))
      6 (.error "down") "aud" "iss").1 = false
    ∧ ({ alg := "RS256", kid := some "k1" } : JwtHeader).alg = "RS256"
      ∧ (some "aud" : Option String) = some "aud"
      ∧ (some "iss" : Option String) = some "iss"
      ∧ ({ iss := some "iss", sub := some "u", aud := some "aud" } : JwtPayload) =
        { iss := some "iss", sub := some "u", aud := some "aud" } := by
  refine ⟨?_, ?_, ?_, ?_, ?_, ?_⟩
  · exact (claim_C5_verification_rejections
      { header := { alg := "none", kid := some "k1" },
        payload := { iss := some "iss", sub := some "u", aud := some "aud" },
        signer := none }
      (SupabaseJwksClient.mk "u" 3600
        (some [("keys", [{ kid := some "k1", material := "m" }])]) (some 5))
      6 (.error "down") "aud" "iss").1 (by decide)
  · exact (claim_C5_verification_rejections
      { header := { alg := "RS256", kid := some "k1" },
        payload := { iss := some "iss", sub := some "u", aud := some "bad" },
        signer := some ("m", "RS256") }
      (SupabaseJwksClient.mk "u" 3600
        (some [("keys", [{ kid := some "k1", material := "m" }])]) (some 5))
      6 (.error "down") "aud" "iss").2.1 (by decide)
  · exact (claim_C5_verification_rejections
      { header := { alg := "RS256", kid := some "k1" },
        payload := { iss := some "bad", sub := some "u", aud := some "aud" },
        signer := some ("m", "RS256") }
      (SupabaseJwksClient.mk "u" 3600
        (some [("keys", [{ kid := some "k1", material := "m" }])]) (some 5))
      6 (.error "down") "aud" "iss").2.2.1 (by decide)
  · exact (claim_C5_verification_rejections
      { header := { alg := "RS256", kid := none },
        payload := { iss := some "iss", sub := some "u", aud := some "aud" },
        signer := some ("m", "RS256") }
      (SupabaseJwksClient.mk "u" 3600
        (some [("keys", [{ kid := some "k1", material := "m" }])]) (some 5))
      6 (.error "down") "aud" "iss").2.2.2.1 (by decide)
  · exact (claim_C5_verification_rejections
      { header := { alg := "RS256", kid := some "k9" },
        payload := { iss := some "iss", sub := some "u", aud := some "aud" },
        signer := some ("m", "RS256") }
      (SupabaseJwksClient.mk "u" 3600
        (some [("keys", [{ kid := some "k1", material := "m" }])]) (some 5))
      6 (.error "down") "aud" "iss").2.2.2.2.1 "k9" rfl (by decide)
  · exact (claim_C5_verification_rejections
      { header := { alg := "RS256", kid := some "k1" },
        payload := { iss := some "iss", sub := some "u", aud := some "aud" },
        signer := some ("m", "RS256") }
      (SupabaseJwksClient.mk "u" 3600
        (some [("keys", [{ kid := some "k1", material := "m" }])]) (some 5))
      6 (.error "down") "aud" "iss").2.2.2.2.2
      { iss := some "iss", sub := some "u", aud := some "aud" } (by decide)

/-- C6: request admission — a request whose path starts with a configured
public-path entry is admitted with no token verification (the result is
the constant admit, independent of the header, the oracles and the token
contents); on a protected path an absent authorization header or one not
beginning with `Bearer ` is rejected 401 with an `error` body; and a
token that verifies but whose `iss` or `sub` claim reads as the empty
string is rejected 401 with an `error` body. -/
theorem claim_C6_request_admission
    (m : JWTAuthMiddleware) (request : PyRequest) (now : Int)
    (fetch : Except String Jwks) (audience issuer : String)
    (decode : String → Option JwtToken) :
    (_is_public_path request.path m.public_paths = true →
      m.dispatch request now fetch audience issuer decode =
        (.admitted none none, m))
    ∧ (_is_public_path request.path m.public_paths = false →
      pyStartsWith (request.authorization.getD "") "Bearer " = false →
      m.dispatch request now fetch audience issuer decode =
        (.rejected { status := 401,
                     body := [("error", .str "Missing Bearer token.")] }, m))
    ∧ (∀ token payload c2,
      _is_public_path request.path m.public_paths = false →
      pyStartsWith (request.authorization.getD "") "Bearer " = true →
      decode ((request.authorization.getD "").drop 7) = some token →
      verify_jwt token m.jwks_client now fetch audience issuer =
        (.ok payload, c2) →
      (payload.iss.getD "" = "" ∨ payload.sub.getD "" = "") →
      m.dispatch request now fetch audience issuer decode =
        (.rejected { status := 401,
                     body := [("error", .str "Token missing iss/sub.")] },
         { m with jwks_client := c2 })) := by
  refine ⟨?_, ?_, ?_⟩
  · intro hpub
    simp [JWTAuthMiddleware.dispatch, hpub]
  · intro hpub hbearer
    simp [JWTAuthMiddleware.dispatch, hpub, hbearer]
  · intro token payload c2 hpub hbearer hdec hver hempty
    have hcond : (payload.iss.getD "" == "" || payload.sub.getD "" == "") =
        true := by
      cases hempty with
      | inl h => simp [h]
      | inr h => simp [h]
    simp [JWTAuthMiddleware.dispatch, hpub, hbearer, hdec, hver, hcond]

/-- C6 witness: the public path `/health` is admitted untouched even with
no header and a dead JWKS endpoint; a protected request with no header is
rejected 401 `Missing Bearer token.`; and a concretely verifying token
whose claim set lacks `sub` is rejected 401 `Token missing iss/sub.`. -/
theorem claim_C6_witness :
    (JWTAuthMiddleware.mk
        (SupabaseJwksClient.mk "u" 3600 none none)
        (InMemoryPrincipalStore.mk []) ["/health"]).dispatch
      (PyRequest.mk "/health" none) 6 (.error "down") "aud" "iss"
      (fun _ => none) =
      (.admitted none none,
       JWTAuthMiddleware.mk (SupabaseJwksClient.mk "u" 3600 none none)
         (InMemoryPrincipalStore.mk []) ["/health"])
    ∧ (JWTAuthMiddleware.mk
        (SupabaseJwksClient.mk "u" 3600 none none)
        (InMemoryPrincipalStore.mk []) ["/health"]).dispatch
      (PyRequest.mk "/mcp" none) 6 (.error "down") "aud" "iss"
      (fun _ => none) =
      (.rejected { status := 401,
                   body := [("error", .str "Missing Bearer token.")] },
       JWTAuthMiddleware.mk (SupabaseJwksClient.mk "u" 3600 none none)
         (InMemoryPrincipalStore.mk []) ["/health"])
    ∧ (JWTAuthMiddleware.mk
        (SupabaseJwksClient.mk "u" 3600
          (some [("keys", [{ kid := some "k1", material := "m" }])]) (some 5))
        (InMemoryPrincipalStore.mk []) ["/health"]).dispatch
      (PyRequest.mk "/mcp" (some "Bearer t")) 6 (.error "down") "aud" "iss"
      (fun _ => some
        { header := { alg := "RS256", kid := some "k1" },
          payload := { iss := some "iss", sub := none, aud := some "aud" },
          signer := some ("m", "RS256") }) =
      (.rejected { status := 401,
                   body := [("error", .str "Token missing iss/sub.")] },
       JWTAuthMiddleware.mk
         (SupabaseJwksClient.mk "u" 3600
           (some [("keys", [{ kid := some "k1", material := "m" }])]) (some 5))
         (InMemoryPrincipalStore.mk []) ["/health"]) := by
  refine ⟨?_, ?_, ?_⟩
  · exact (claim_C6_request_admission
      (JWTAuthMiddleware.mk (SupabaseJwksClient.mk "u" 3600 none none)
        (InMemoryPrincipalStore.mk []) ["/health"])
      (PyRequest.mk "/health" none) 6 (.error "down") "aud" "iss"
      (fun _ => none)).1 (by decide)
  · exact (claim_C6_request_admission
      (JWTAuthMiddleware.mk (SupabaseJwksClient.mk "u" 3600 none none)
        (InMemoryPrincipalStore.mk []) ["/health"])
      (PyRequest.mk "/mcp" none) 6 (.error "down") "aud" "iss"
      (fun _ => none)).2.1 (by decide) (by decide)
  · exact (claim_C6_request_admission
      (JWTAuthMiddleware.mk
        (SupabaseJwksClient.mk "u" 3600
          (some [("keys", [{ kid := some "k1", material := "m" }])]) (some 5))
        (InMemoryPrincipalStore.mk []) ["/health"])
      (PyRequest.mk "/mcp" (some "Bearer t")) 6 (.error "down") "aud" "iss"
      (fun _ => some
        { header := { alg := "RS256", kid := some "k1" },
          payload := { iss := some "iss", sub := none, aud := some "aud" },
          signer := some ("m", "RS256") })).2.2
      { header := { alg := "RS256", kid := some "k1" },
        payload := { iss := some "iss", sub := none, aud := some "aud" },
        signer := some ("m", "RS256") }
      { iss := some "iss", sub := none, aud := some "aud" }
      (SupabaseJwksClient.mk "u" 3600
        (some [("keys", [{ kid := some "k1", material := "m" }])]) (some 5))
      (by decide) (by decide) rfl (by decide) (Or.inr (by decide))

/-- C8: the sanitized token view strips the `access_token` and `raw`
fields, renders `created_at` as the ISO-8601 string of the stored
timestamp, and keeps the remaining fields unchanged; and a successful
callback returns exactly this view of the record it stored as the `token`
member of its 200 body, the stored record being what the token store then
returns. -/
theorem claim_C8_sanitized_token_view
    (t : TokenRecord) (code state_val : String) (s : InMemoryStateStore)
    (ts : InMemoryTokenStore) (now : Int)
    (exchange : Except String TokenResponse) (smoke : Except String JsonObj)
    (record : TokenRecord) (sm : JsonObj) (s2 : InMemoryStateStore)
    (t2 : InMemoryTokenStore) :
    dictGet (_serialize_token t) "access_token" = none
    ∧ dictGet (_serialize_token t) "raw" = none
    ∧ dictGet (_serialize_token t) "created_at" =
        some (.str (isoformat t.created_at))
    ∧ dictGet (_serialize_token t) "workspace_id" =
        some (optJVal t.workspace_id)
    ∧ dictGet (_serialize_token t) "workspace_name" =
        some (optJVal t.workspace_name)
    ∧ dictGet (_serialize_token t) "scope" = some (optJVal t.scope)
    ∧ (code ≠ "" → state_val ≠ "" →
      handle_callback code state_val s ts now exchange smoke =
        (.ok record sm, s2, t2) →
      (notion_oauth_callback (some code) (some state_val) s ts now exchange
          smoke).1 =
        { status := 200,
          body := [("token", .obj (_serialize_token record)),
                   ("smoke_test", .obj sm)] }
      ∧ t2.get = some record) := by
  refine ⟨?_, ?_, ?_, ?_, ?_, ?_, ?_⟩
  · simp [_serialize_token, asdictTokenRecord, dictGet, dictSet, dictPop]
  · simp [_serialize_token, asdictTokenRecord, dictGet, dictSet, dictPop]
  · simp [_serialize_token, asdictTokenRecord, dictGet, dictSet, dictPop]
  · simp [_serialize_token, asdictTokenRecord, dictGet, dictSet, dictPop]
  · simp [_serialize_token, asdictTokenRecord, dictGet, dictSet, dictPop]
  · simp [_serialize_token, asdictTokenRecord, dictGet, dictSet, dictPop]
  · intro hcode hstate hcb
    constructor
    · simp [notion_oauth_callback, pyFalsyOptStr, hcode, hstate, hcb]
    · unfold handle_callback at hcb
      rcases hcon : s.consume state_val now with ⟨r, s3⟩
      rw [hcon] at hcb
      cases r with
      | none => simp at hcb
      | some st =>
          cases exchange with
          | error e => simp at hcb
          | ok resp =>
              simp only at hcb
              cases smoke with
              | error e => simp at hcb
              | ok smp =>
                  simp only [store_token, CallbackOutcome.ok.injEq,
                    Prod.mk.injEq] at hcb
                  obtain ⟨⟨hrec, -⟩, -, ht2⟩ := hcb
                  rw [← ht2, ← hrec]
                  rfl

/-- C8 witness: a concrete successful callback — fresh state `s`, code
`c`, a token response carrying an access token and workspace fields —
returns the 200 body whose `token` member is the sanitized view, and the
token store then returns the stored record. -/
theorem claim_C8_witness :
    (notion_oauth_callback (some "c") (some "s")
        (InMemoryStateStore.mk
          [("s", { state := "s", created_at := 0, expires_at := 600,
                   consumed_at := none, principal_id := none })])
        (InMemoryTokenStore.mk none) 5
        (.ok [("access_token", "tok"), ("workspace_id", "w1")]) (.ok [])).1 =
      { status := 200,
        body := [("token", .obj (_serialize_token
                   { access_token := "tok", workspace_id := some "w1",
                     workspace_name := none, created_at := 5, scope := none,
                     raw := [("access_token", "tok"), ("workspace_id", "w1")] })),
                 ("smoke_test", .obj [])] }
    ∧ (InMemoryTokenStore.mk (some
        { access_token := "tok", workspace_id := some "w1",
          workspace_name := none, created_at := 5, scope := none,
          raw := [("access_token", "tok"), ("workspace_id", "w1")] })).get =
      some { access_token := "tok", workspace_id := some "w1",
             workspace_name := none, created_at := 5, scope := none,
             raw := [("access_token", "tok"), ("workspace_id", "w1")] } := by
  exact (claim_C8_sanitized_token_view
    { access_token := "tok", workspace_id := some "w1",
      workspace_name := none, created_at := 5, scope := none,
      raw := [("access_token", "tok"), ("workspace_id", "w1")] }
    "c" "s"
    (InMemoryStateStore.mk
      [("s", { state := "s", created_at := 0, expires_at := 600,
               consumed_at := none, principal_id := none })])
    (InMemoryTokenStore.mk none) 5
    (.ok [("access_token", "tok"), ("workspace_id", "w1")]) (.ok [])
    { access_token := "tok", workspace_id := some "w1",
      workspace_name := none, created_at := 5, scope := none,
      raw := [("access_token", "tok"), ("workspace_id", "w1")] }
    []
    (InMemoryStateStore.mk
      [("s", { state := "s", created_at := 0, expires_at := 600,
               consumed_at := some 5, principal_id := none })])
    (InMemoryTokenStore.mk (some
      { access_token := "tok", workspace_id := some "w1",
        workspace_name := none, created_at := 5, scope := none,
        raw := [("access_token", "tok"), ("workspace_id", "w1")] }))).2.2.2.2.2.2
    (by decide) (by decide) (by decide)
